import Mathlib

/-!
Verification of the Breakpoint Python event-notification adapter
(`examples/adapters/notify.py`) against its natural-language specification.

The development shallowly embeds the adapter: JSON values are an inductive
type, Python dict construction (`{k1: v1, ..., **kwargs}`) is modelled with
insert-or-update association-list semantics (later entries win, in-place
update keeps position), `datetime.isoformat()` is modelled on a civil-time
record, and the HTTP transport (`requests.post` with a timeout, followed by
`raise_for_status()` and `.json()`) is modelled by an oracle giving the
service's behaviour for the issued request.
-/

set_option autoImplicit false

namespace Breakpoint

/-- JSON-serializable values, the type of Python values that appear in the
event payload and in service response bodies. -/
inductive JVal where
  | str : String → JVal
  | num : Int → JVal
  | bool : Bool → JVal
  | null : JVal
  | arr : List JVal → JVal
  | obj : List (String × JVal) → JVal

/-- Lookup of a key in an association list representing a Python dict:
the first entry with the key wins (dicts never hold duplicate keys). -/
def dictGet (k : String) : List (String × JVal) → Option JVal
  | [] => none
  | (k2, v) :: rest => if k2 = k then some v else dictGet k rest

/-- Python dict insertion semantics: inserting a key that is already present
updates the value in place (the entry keeps its position); a new key is
appended at the end. This is what each `key: value` item and each entry of a
`**kwargs` splat does during dict-literal construction. -/
def dictInsert (d : List (String × JVal)) (k : String) (v : JVal) : List (String × JVal) :=
  if d.any (fun p => p.1 == k) then
    d.map (fun p => if p.1 = k then (k, v) else p)
  else d ++ [(k, v)]

/-- Folding a sequence of entries into a dict, in order; models splatting
`**kwargs` into a dict literal after the literal entries. -/
def dictUpdate (d : List (String × JVal)) (kvs : List (String × JVal)) : List (String × JVal) :=
  kvs.foldl (fun acc p => dictInsert acc p.1 p.2) d

/-- Civil (broken-down) UTC time as held by a Python `datetime` object. -/
structure CivilTime where
  year : Nat
  month : Nat
  day : Nat
  hour : Nat
  minute : Nat
  second : Nat
  microsecond : Nat
deriving Repr, DecidableEq

/-- The range invariants Python's `datetime` constructor enforces, so every
value `datetime.utcnow()` can return satisfies them. -/
def CivilTime.valid (t : CivilTime) : Prop :=
  1 ≤ t.year ∧ t.year ≤ 9999 ∧ 1 ≤ t.month ∧ t.month ≤ 12 ∧
  1 ≤ t.day ∧ t.day ≤ 31 ∧ t.hour ≤ 23 ∧ t.minute ≤ 59 ∧
  t.second ≤ 59 ∧ t.microsecond ≤ 999999

instance (t : CivilTime) : Decidable t.valid := by
  unfold CivilTime.valid; infer_instance

/-- Chronological key of a civil time: strictly monotone in chronological
order for in-range field values, so it lets us compare civil times. -/
def CivilTime.key (t : CivilTime) : Nat :=
  t.microsecond +
    1000000 * (t.second + 60 * (t.minute + 60 * (t.hour + 24 * (t.day + 32 * (t.month + 13 * t.year)))))

/-- Decimal digit character for a digit value. -/
def digitChar (n : Nat) : Char := Char.ofNat (48 + n)

/-- Two-digit zero-padded decimal rendering, as produced by `%02d`-style
formatting for values below 100. -/
def pad2 (n : Nat) : String :=
  String.mk [digitChar (n / 10), digitChar (n % 10)]

/-- Four-digit zero-padded decimal rendering for values below 10000. -/
def pad4 (n : Nat) : String :=
  String.mk [digitChar (n / 1000), digitChar (n / 100 % 10), digitChar (n / 10 % 10), digitChar (n % 10)]

/-- Six-digit zero-padded decimal rendering for values below 1000000. -/
def pad6 (n : Nat) : String :=
  String.mk [digitChar (n / 100000), digitChar (n / 10000 % 10), digitChar (n / 1000 % 10),
    digitChar (n / 100 % 10), digitChar (n / 10 % 10), digitChar (n % 10)]

/-- Python `datetime.isoformat()` on a naive datetime: `YYYY-MM-DDTHH:MM:SS`,
with a `.ffffff` microsecond part appended only when the microsecond is
nonzero. Field widths agree with Python on every in-range `datetime` value. -/
def isoformat (t : CivilTime) : String :=
  pad4 t.year ++ "-" ++ pad2 t.month ++ "-" ++ pad2 t.day ++ "T" ++
    pad2 t.hour ++ ":" ++ pad2 t.minute ++ ":" ++ pad2 t.second ++
    (if t.microsecond = 0 then "" else "." ++ pad6 t.microsecond)

/-- Digit value of a decimal digit character. -/
def toDigit (c : Char) : Option Nat :=
  if c.isDigit then some (c.toNat - 48) else none

/-- Number denoted by two decimal digit characters. -/
def toDigit2 (a b : Char) : Option Nat :=
  match toDigit a, toDigit b with
  | some x, some y => some (10 * x + y)
  | _, _ => none

/-- Number denoted by four decimal digit characters. -/
def toDigit4 (a b c d : Char) : Option Nat :=
  match toDigit2 a b, toDigit2 c d with
  | some x, some y => some (100 * x + y)
  | _, _ => none

/-- Number denoted by six decimal digit characters. -/
def toDigit6 (a b c d e f : Char) : Option Nat :=
  match toDigit2 a b, toDigit2 c d, toDigit2 e f with
  | some x, some y, some z => some (10000 * x + 100 * y + z)
  | _, _, _ => none

/-- Parser for the ISO-8601 text produced by `isoformat`: decodes the civil
time a timestamp string denotes, accepting exactly the two shapes
`YYYY-MM-DDTHH:MM:SS` and `YYYY-MM-DDTHH:MM:SS.ffffff`. -/
def parseIso (s : String) : Option CivilTime :=
  match s.data with
  | [y1, y2, y3, y4, a1, o1, o2, a2, d1, d2, a3, h1, h2, a4, i1, i2, a5, s1, s2] =>
    if a1 = '-' ∧ a2 = '-' ∧ a3 = 'T' ∧ a4 = ':' ∧ a5 = ':' then
      match toDigit4 y1 y2 y3 y4, toDigit2 o1 o2, toDigit2 d1 d2,
          toDigit2 h1 h2, toDigit2 i1 i2, toDigit2 s1 s2 with
      | some y, some mo, some da, some ho, some mi, some se => some ⟨y, mo, da, ho, mi, se, 0⟩
      | _, _, _, _, _, _ => none
    else none
  | [y1, y2, y3, y4, a1, o1, o2, a2, d1, d2, a3, h1, h2, a4, i1, i2, a5, s1, s2, a6,
      u1, u2, u3, u4, u5, u6] =>
    if a1 = '-' ∧ a2 = '-' ∧ a3 = 'T' ∧ a4 = ':' ∧ a5 = ':' ∧ a6 = '.' then
      match toDigit4 y1 y2 y3 y4, toDigit2 o1 o2, toDigit2 d1 d2,
          toDigit2 h1 h2, toDigit2 i1 i2, toDigit2 s1 s2, toDigit6 u1 u2 u3 u4 u5 u6 with
      | some y, some mo, some da, some ho, some mi, some se, some us =>
        some ⟨y, mo, da, ho, mi, se, us⟩
      | _, _, _, _, _, _, _ => none
    else none
  | _ => none

/-- Parser for the full timestamp field value: the ISO-8601 text followed by
the explicit UTC designator `Z` that the adapter appends. -/
def parseTimestamp (s : String) : Option CivilTime :=
  if s.data.getLast? = some 'Z' then parseIso (String.mk s.data.dropLast) else none

/-- One reading of the system clock, as the two `datetime` calls in `notify`
observe it: `int(datetime.now().timestamp() * 1000)` for the id, and
`datetime.utcnow()` for the timestamp field. -/
structure Clock where
  nowMillis : Int
  utcNow : CivilTime
deriving Repr, DecidableEq

/-- The event payload dict built by `notify` (source lines 29-37): the six
client-generated/core entries in literal order, then `**kwargs` splatted
after them. -/
def buildPayload (c : Clock) (event_type priority title : String)
    (kwargs : List (String × JVal)) : List (String × JVal) :=
  dictUpdate
    [("id", JVal.str ("py-" ++ toString c.nowMillis)),
     ("event_type", JVal.str event_type),
     ("source", JVal.str "python-adapter"),
     ("priority", JVal.str priority),
     ("title", JVal.str title),
     ("timestamp", JVal.str (isoformat c.utcNow ++ "Z"))]
    kwargs

/-- An HTTP request as `requests.post` receives it from `notify`. The body is
the JSON object posted via the `json=` argument; the timeout is in seconds. -/
structure Request where
  url : String
  headers : List (String × String)
  body : List (String × JVal)
  timeout : Nat

/-- Behaviour of the service for one request: either it never responds, or it
responds after `delay` time-units with a status code and a body. The body is
abstracted by the outcome of Python's JSON parser on it: `none` means the raw
body cannot be parsed as JSON, `some j` that it parses to `j`. -/
inductive HttpOutcome where
  | noResponse
  | response (delay : Nat) (status : Nat) (body : Option JVal)

/-- Errors `notify` can raise, in the taxonomy of the specification:
`requests` timeout/connection failures are TransportError, the `HTTPError`
from `raise_for_status()` is ProtocolError with the status, and a JSON parse
failure in `resp.json()` is DecodeError. -/
inductive NotifyError where
  | transportError
  | protocolError (status : Nat)
  | decodeError
deriving Repr, DecidableEq

/-- Semantics of `requests.post` with a timeout, given the service behaviour:
if the service never responds or responds later than the timeout, the call
raises a timeout error after blocking for the full timeout; otherwise it
returns the response after blocking for the delay. The first component is the
time the call blocked. -/
def doPost (req : Request) (o : HttpOutcome) : Nat × Except NotifyError (Nat × Option JVal) :=
  match o with
  | .noResponse => (req.timeout, .error .transportError)
  | .response d status body =>
    if req.timeout < d then (req.timeout, .error .transportError)
    else (d, .ok (status, body))

/-- Python `Response.raise_for_status()`: raises `HTTPError` exactly for
status codes in 400-599, carrying the status code. -/
def raise_for_status (status : Nat) : Except NotifyError Unit :=
  if 400 ≤ status ∧ status < 600 then .error (.protocolError status) else .ok ()

/-- One complete run of `notify`: the transport calls it issued in order, the
total time it blocked on the network, and its result. -/
structure NotifyRun where
  calls : List Request
  blocked : Nat
  result : Except NotifyError JVal

/-- The embedding of `notify(title, event_type="custom", priority="ambient",
**kwargs)`. Configuration (`BREAKPOINT_URL`, `BREAKPOINT_TOKEN`) is passed as
resolved values, the clock reading and the service behaviour are parameters.
It builds the payload, issues the single `requests.post` to
`baseUrl ++ "/api/v1/events"` with the bearer header and `timeout=10`, then
runs `resp.raise_for_status()` and returns `resp.json()`. -/
def notifyRun (baseUrl token : String) (c : Clock) (oracle : Request → HttpOutcome)
    (title : String) (event_type : String := "custom") (priority : String := "ambient")
    (kwargs : List (String × JVal) := []) : NotifyRun :=
  let req : Request :=
    { url := baseUrl ++ "/api/v1/events"
      headers := [("Authorization", "Bearer " ++ token)]
      body := buildPayload c event_type priority title kwargs
      timeout := 10 }
  let post := doPost req (oracle req)
  { calls := [req]
    blocked := post.1
    result :=
      match post.2 with
      | .error e => .error e
      | .ok (status, body) =>
        match raise_for_status status with
        | .error e => .error e
        | .ok _ =>
          match body with
          | some j => .ok j
          | none => .error .decodeError }

/-- The value `notify` returns (or the error it raises). -/
def notify (baseUrl token : String) (c : Clock) (oracle : Request → HttpOutcome)
    (title : String) (event_type : String := "custom") (priority : String := "ambient")
    (kwargs : List (String × JVal) := []) : Except NotifyError JVal :=
  (notifyRun baseUrl token c oracle title event_type priority kwargs).result

/-- Keyword names Python routes to the declared parameters of `notify`; a
call whose `**kwargs` contained one of these would raise `TypeError` before
the body ran, so every run of the body has kwargs free of them. -/
def validKwargs (kwargs : List (String × JVal)) : Prop :=
  ∀ p ∈ kwargs, p.1 ≠ "title" ∧ p.1 ≠ "event_type" ∧ p.1 ≠ "priority"

instance (kwargs : List (String × JVal)) : Decidable (validKwargs kwargs) := by
  unfold validKwargs; infer_instance

end Breakpoint
namespace Breakpoint

theorem dictGet_nil (k : String) : dictGet k [] = none := rfl

theorem dictGet_cons (k : String) (p : String × JVal) (rest : List (String × JVal)) :
    dictGet k (p :: rest) = if p.1 = k then some p.2 else dictGet k rest := by
  rcases p with ⟨a, b⟩; rfl

theorem dictGet_map_same (d : List (String × JVal)) (k : String) (v : JVal)
    (h : d.any (fun p => p.1 == k)) :
    dictGet k (d.map (fun p => if p.1 = k then (k, v) else p)) = some v := by
  induction d with
  | nil => simp at h
  | cons p rest ih =>
    by_cases hp : p.1 = k
    · rw [List.map_cons, if_pos hp, dictGet_cons]
      simp
    · rw [List.any_cons, Bool.or_eq_true] at h
      rcases h with h1 | h2
      · exact absurd (by simpa using h1) hp
      · rw [List.map_cons, if_neg hp, dictGet_cons, if_neg hp]
        exact ih h2

theorem dictGet_map_other (d : List (String × JVal)) (k k2 : String) (v : JVal)
    (h : k2 ≠ k) :
    dictGet k2 (d.map (fun p => if p.1 = k then (k, v) else p)) = dictGet k2 d := by
  induction d with
  | nil => rfl
  | cons p rest ih =>
    by_cases hp : p.1 = k
    · rw [List.map_cons, if_pos hp, dictGet_cons, dictGet_cons, if_neg (fun he => h he.symm),
        if_neg (fun he : p.1 = k2 => h (hp ▸ he.symm)), ih]
    · rw [List.map_cons, if_neg hp, dictGet_cons, dictGet_cons, ih]

theorem dictGet_append_single_same (d : List (String × JVal)) (k : String) (v : JVal)
    (h : ¬ d.any (fun p => p.1 == k)) :
    dictGet k (d ++ [(k, v)]) = some v := by
  induction d with
  | nil => simp [dictGet]
  | cons p rest ih =>
    rw [List.any_cons, Bool.or_eq_true, not_or] at h
    have hp : p.1 ≠ k := by simpa using h.1
    rw [List.cons_append, dictGet_cons, if_neg hp]
    exact ih h.2

theorem dictGet_append_single_other (d : List (String × JVal)) (k k2 : String) (v : JVal)
    (h : k2 ≠ k) :
    dictGet k2 (d ++ [(k, v)]) = dictGet k2 d := by
  induction d with
  | nil =>
    rw [List.nil_append, dictGet_cons, dictGet_nil, if_neg (fun he => h he.symm)]
  | cons p rest ih =>
    rw [List.cons_append, dictGet_cons, dictGet_cons, ih]

theorem dictGet_dictInsert_same (d : List (String × JVal)) (k : String) (v : JVal) :
    dictGet k (dictInsert d k v) = some v := by
  by_cases hA : d.any (fun p => p.1 == k)
  · rw [dictInsert, if_pos hA]
    exact dictGet_map_same d k v hA
  · rw [dictInsert, if_neg hA]
    exact dictGet_append_single_same d k v hA

theorem dictGet_dictInsert_other (d : List (String × JVal)) (k k2 : String) (v : JVal)
    (h : k2 ≠ k) : dictGet k2 (dictInsert d k v) = dictGet k2 d := by
  by_cases hA : d.any (fun p => p.1 == k)
  · rw [dictInsert, if_pos hA]
    exact dictGet_map_other d k k2 v h
  · rw [dictInsert, if_neg hA]
    exact dictGet_append_single_other d k k2 v h

theorem dictGet_dictUpdate_not_mem (d : List (String × JVal))
    (kvs : List (String × JVal)) (k : String) (h : ∀ p ∈ kvs, p.1 ≠ k) :
    dictGet k (dictUpdate d kvs) = dictGet k d := by
  induction kvs generalizing d with
  | nil => rfl
  | cons q rest ih =>
    have hq : q.1 ≠ k := h q (List.mem_cons_self q rest)
    calc dictGet k (dictUpdate (dictInsert d q.1 q.2) rest)
        = dictGet k (dictInsert d q.1 q.2) :=
          ih (dictInsert d q.1 q.2) (fun p hp => h p (List.mem_cons_of_mem q hp))
      _ = dictGet k d := dictGet_dictInsert_other d q.1 k q.2 (fun he => hq he.symm)

theorem dictGet_dictUpdate_mem (d : List (String × JVal))
    (kvs : List (String × JVal)) (k : String) (v : JVal)
    (hnd : (kvs.map Prod.fst).Nodup) (hmem : (k, v) ∈ kvs) :
    dictGet k (dictUpdate d kvs) = some v := by
  induction kvs generalizing d with
  | nil => simp at hmem
  | cons q rest ih =>
    rw [List.map_cons, List.nodup_cons] at hnd
    rcases List.mem_cons.mp hmem with heq | hrest
    · subst heq
      have hk : ∀ p ∈ rest, p.1 ≠ k := by
        intro p hp hpk
        have hm : p.1 ∈ rest.map Prod.fst := List.mem_map_of_mem Prod.fst hp
        rw [hpk] at hm
        exact hnd.1 hm
      calc dictGet k (dictUpdate (dictInsert d k v) rest)
          = dictGet k (dictInsert d k v) := dictGet_dictUpdate_not_mem _ rest k hk
        _ = some v := dictGet_dictInsert_same d k v
    · exact ih (dictInsert d q.1 q.2) hnd.2 hrest


end Breakpoint
namespace Breakpoint

/-- Decoding a digit character gives back the digit. -/
theorem toDigit_digitChar (n : Nat) (h : n < 10) : toDigit (digitChar n) = some n := by
  interval_cases n <;> rfl

/-- Decoding the two digit characters of a two-digit rendering gives back the
number. -/
theorem toDigit2_pad (n : Nat) (h : n < 100) :
    toDigit2 (digitChar (n / 10)) (digitChar (n % 10)) = some n := by
  rw [toDigit2, toDigit_digitChar (n / 10) (by omega), toDigit_digitChar (n % 10) (by omega)]
  simp only [Option.some.injEq]
  omega

/-- Decoding the four digit characters of a four-digit rendering gives back
the number. -/
theorem toDigit4_pad (n : Nat) (h : n < 10000) :
    toDigit4 (digitChar (n / 1000)) (digitChar (n / 100 % 10)) (digitChar (n / 10 % 10))
      (digitChar (n % 10)) = some n := by
  rw [toDigit4, toDigit2, toDigit2,
    toDigit_digitChar (n / 1000) (by omega), toDigit_digitChar (n / 100 % 10) (by omega),
    toDigit_digitChar (n / 10 % 10) (by omega), toDigit_digitChar (n % 10) (by omega)]
  simp only [Option.some.injEq]
  omega

/-- Decoding the six digit characters of a six-digit rendering gives back the
number. -/
theorem toDigit6_pad (n : Nat) (h : n < 1000000) :
    toDigit6 (digitChar (n / 100000)) (digitChar (n / 10000 % 10)) (digitChar (n / 1000 % 10))
      (digitChar (n / 100 % 10)) (digitChar (n / 10 % 10)) (digitChar (n % 10)) = some n := by
  rw [toDigit6, toDigit2, toDigit2, toDigit2,
    toDigit_digitChar (n / 100000) (by omega), toDigit_digitChar (n / 10000 % 10) (by omega),
    toDigit_digitChar (n / 1000 % 10) (by omega), toDigit_digitChar (n / 100 % 10) (by omega),
    toDigit_digitChar (n / 10 % 10) (by omega), toDigit_digitChar (n % 10) (by omega)]
  simp only [Option.some.injEq]
  omega

/-- Character list of `isoformat` when the microsecond is zero. -/
theorem isoformat_data_of_zero (t : CivilTime) (h : t.microsecond = 0) :
    (isoformat t).data =
      [digitChar (t.year / 1000), digitChar (t.year / 100 % 10), digitChar (t.year / 10 % 10),
       digitChar (t.year % 10), '-', digitChar (t.month / 10), digitChar (t.month % 10), '-',
       digitChar (t.day / 10), digitChar (t.day % 10), 'T', digitChar (t.hour / 10),
       digitChar (t.hour % 10), ':', digitChar (t.minute / 10), digitChar (t.minute % 10), ':',
       digitChar (t.second / 10), digitChar (t.second % 10)] := by
  simp [isoformat, h, pad2, pad4, String.data_append]

/-- Character list of `isoformat` when the microsecond is nonzero. -/
theorem isoformat_data_of_pos (t : CivilTime) (h : t.microsecond ≠ 0) :
    (isoformat t).data =
      [digitChar (t.year / 1000), digitChar (t.year / 100 % 10), digitChar (t.year / 10 % 10),
       digitChar (t.year % 10), '-', digitChar (t.month / 10), digitChar (t.month % 10), '-',
       digitChar (t.day / 10), digitChar (t.day % 10), 'T', digitChar (t.hour / 10),
       digitChar (t.hour % 10), ':', digitChar (t.minute / 10), digitChar (t.minute % 10), ':',
       digitChar (t.second / 10), digitChar (t.second % 10), '.',
       digitChar (t.microsecond / 100000), digitChar (t.microsecond / 10000 % 10),
       digitChar (t.microsecond / 1000 % 10), digitChar (t.microsecond / 100 % 10),
       digitChar (t.microsecond / 10 % 10), digitChar (t.microsecond % 10)] := by
  simp [isoformat, h, pad2, pad4, pad6, String.data_append]

end Breakpoint
namespace Breakpoint

/-- Parsing the timestamp text the adapter generates recovers exactly the
civil time `datetime.utcnow()` returned: the generated timestamp is
well-formed ISO-8601 with the explicit `Z` designator and denotes the UTC
clock reading. -/
theorem parseTimestamp_isoformat (t : CivilTime) (hv : t.valid) :
    parseTimestamp (isoformat t ++ "Z") = some t := by
  obtain ⟨y, mo, da, ho, mi, se, us⟩ := t
  obtain ⟨hy1, hy2, hm1, hm2, hd1, hd2, hh, hmi, hs, hus⟩ := hv
  dsimp only at hy1 hy2 hm1 hm2 hd1 hd2 hh hmi hs hus
  have hd : (isoformat ⟨y, mo, da, ho, mi, se, us⟩ ++ "Z").data =
      (isoformat ⟨y, mo, da, ho, mi, se, us⟩).data ++ ['Z'] := by
    rw [String.data_append]
  rw [parseTimestamp, hd, List.getLast?_concat, List.dropLast_concat, if_pos rfl]
  by_cases h0 : us = 0
  · subst h0
    rw [isoformat_data_of_zero ⟨y, mo, da, ho, mi, se, 0⟩ rfl]
    rw [parseIso]
    dsimp only
    rw [if_pos ⟨rfl, rfl, rfl, rfl, rfl⟩]
    rw [toDigit4_pad y (by omega), toDigit2_pad mo (by omega), toDigit2_pad da (by omega),
      toDigit2_pad ho (by omega), toDigit2_pad mi (by omega), toDigit2_pad se (by omega)]
  · rw [isoformat_data_of_pos ⟨y, mo, da, ho, mi, se, us⟩ h0]
    rw [parseIso]
    dsimp only
    rw [if_pos ⟨rfl, rfl, rfl, rfl, rfl, rfl⟩]
    rw [toDigit4_pad y (by omega), toDigit2_pad mo (by omega), toDigit2_pad da (by omega),
      toDigit2_pad ho (by omega), toDigit2_pad mi (by omega), toDigit2_pad se (by omega),
      toDigit6_pad us (by omega)]

end Breakpoint
namespace Breakpoint

theorem notifyRun_calls (baseUrl token : String) (c : Clock) (oracle : Request → HttpOutcome)
    (title event_type priority : String) (kwargs : List (String × JVal)) :
    (notifyRun baseUrl token c oracle title event_type priority kwargs).calls =
      [{ url := baseUrl ++ "/api/v1/events"
         headers := [("Authorization", "Bearer " ++ token)]
         body := buildPayload c event_type priority title kwargs
         timeout := 10 }] := rfl

theorem dictGet_buildPayload_base (c : Clock) (event_type priority title : String)
    (kwargs : List (String × JVal)) (k : String) (h : ∀ p ∈ kwargs, p.1 ≠ k) :
    dictGet k (buildPayload c event_type priority title kwargs) =
      dictGet k
        [("id", JVal.str ("py-" ++ toString c.nowMillis)),
         ("event_type", JVal.str event_type),
         ("source", JVal.str "python-adapter"),
         ("priority", JVal.str priority),
         ("title", JVal.str title),
         ("timestamp", JVal.str (isoformat c.utcNow ++ "Z"))] :=
  dictGet_dictUpdate_not_mem _ kwargs k h

theorem title_in_payload (c : Clock) (event_type priority title : String)
    (kwargs : List (String × JVal)) (hv : validKwargs kwargs) :
    dictGet "title" (buildPayload c event_type priority title kwargs) = some (JVal.str title) := by
  rw [dictGet_buildPayload_base c event_type priority title kwargs "title"
    (fun p hp => (hv p hp).1)]
  rfl

theorem doPost_fst_le (req : Request) (o : HttpOutcome) : (doPost req o).1 ≤ req.timeout := by
  cases o with
  | noResponse => exact le_refl _
  | response d status body =>
    rw [doPost]
    by_cases hd : req.timeout < d
    · rw [if_pos hd]
    · rw [if_neg hd]
      exact le_of_not_lt hd

theorem notify_response (baseUrl token : String) (c : Clock)
    (title event_type priority : String) (kwargs : List (String × JVal))
    (d s : Nat) (b : Option JVal) (hd : d ≤ 10) :
    notify baseUrl token c (fun _ => HttpOutcome.response d s b) title event_type priority kwargs =
      if 400 ≤ s ∧ s < 600 then Except.error (NotifyError.protocolError s)
      else match b with
        | some j => Except.ok j
        | none => Except.error NotifyError.decodeError := by
  unfold notify notifyRun doPost raise_for_status
  dsimp only
  rw [if_neg (by omega : ¬ 10 < d)]
  dsimp only
  by_cases hs : 400 ≤ s ∧ s < 600
  · rw [if_pos hs, if_pos hs]
  · rw [if_neg hs, if_neg hs]

end Breakpoint
namespace Breakpoint

/-- C1: the claim fails on the code. In the dict literal the `**kwargs` splat
comes after the six reserved entries, so a caller-supplied extension field
named `id` overrides the client-generated id: at clock reading 0 the
client-generated id is `py-0`, but the transmitted payload carries the caller
value. -/
theorem C1_counterexample :
    dictGet "id" (buildPayload ⟨0, ⟨2024, 1, 1, 0, 0, 0, 0⟩⟩ "custom" "ambient" "t"
        [("id", JVal.str "caller")]) = some (JVal.str "caller") ∧
    dictGet "id" (buildPayload ⟨0, ⟨2024, 1, 1, 0, 0, 0, 0⟩⟩ "custom" "ambient" "t"
        [("id", JVal.str "caller")]) ≠ some (JVal.str ("py-" ++ toString (0 : Int))) := by
  refine ⟨rfl, ?_⟩
  intro h
  have h2 : JVal.str "caller" = JVal.str ("py-" ++ toString (0 : Int)) :=
    Option.some.inj h
  injection h2 with h3
  exact absurd h3 (by decide)

/-- C1 amended: extension fields override the reserved entries they collide
with (`id`, `source`, `timestamp` are the reachable collisions), because the
splat is last in the dict literal; the keyword names `title`, `event_type`
and `priority` can never occur among the extra keyword fields, so those three
reserved fields always carry the client/core values. -/
theorem C1_amended (c : Clock) (event_type priority title : String)
    (kwargs : List (String × JVal)) (hv : validKwargs kwargs)
    (hnd : (kwargs.map Prod.fst).Nodup) :
    (∀ p ∈ kwargs, dictGet p.1 (buildPayload c event_type priority title kwargs) = some p.2) ∧
    dictGet "event_type" (buildPayload c event_type priority title kwargs) =
      some (JVal.str event_type) ∧
    dictGet "priority" (buildPayload c event_type priority title kwargs) =
      some (JVal.str priority) ∧
    dictGet "title" (buildPayload c event_type priority title kwargs) =
      some (JVal.str title) := by
  refine ⟨?_, ?_, ?_, ?_⟩
  · intro p hp
    exact dictGet_dictUpdate_mem _ kwargs p.1 p.2 hnd hp
  · rw [dictGet_buildPayload_base c event_type priority title kwargs "event_type"
      (fun p hp => (hv p hp).2.1)]
    rfl
  · rw [dictGet_buildPayload_base c event_type priority title kwargs "priority"
      (fun p hp => (hv p hp).2.2)]
    rfl
  · rw [dictGet_buildPayload_base c event_type priority title kwargs "title"
      (fun p hp => (hv p hp).1)]
    rfl

/-- Witness for C1 amended at a concrete input. -/
theorem C1_amended_witness :
    validKwargs [("body", JVal.str "hello"), ("id", JVal.str "override")] ∧
    ((["body", "id"] : List String).Nodup) ∧
    (∀ p ∈ [("body", JVal.str "hello"), ("id", JVal.str "override")],
      dictGet p.1 (buildPayload ⟨7, ⟨2024, 1, 1, 0, 0, 0, 0⟩⟩ "deploy" "urgent" "T"
        [("body", JVal.str "hello"), ("id", JVal.str "override")]) = some p.2) ∧
    dictGet "event_type" (buildPayload ⟨7, ⟨2024, 1, 1, 0, 0, 0, 0⟩⟩ "deploy" "urgent" "T"
        [("body", JVal.str "hello"), ("id", JVal.str "override")]) = some (JVal.str "deploy") ∧
    dictGet "priority" (buildPayload ⟨7, ⟨2024, 1, 1, 0, 0, 0, 0⟩⟩ "deploy" "urgent" "T"
        [("body", JVal.str "hello"), ("id", JVal.str "override")]) = some (JVal.str "urgent") ∧
    dictGet "title" (buildPayload ⟨7, ⟨2024, 1, 1, 0, 0, 0, 0⟩⟩ "deploy" "urgent" "T"
        [("body", JVal.str "hello"), ("id", JVal.str "override")]) = some (JVal.str "T") := by
  refine ⟨by decide, by decide, ?_⟩
  exact C1_amended ⟨7, ⟨2024, 1, 1, 0, 0, 0, 0⟩⟩ "deploy" "urgent" "T"
    [("body", JVal.str "hello"), ("id", JVal.str "override")] (by decide) (by decide)

end Breakpoint
namespace Breakpoint

/-- C2 (code bug per the spec's own open question): two invocations within
the same millisecond read the same `int(now().timestamp() * 1000)` value and
generate equal `id` fields, although the two clock readings (and so the two
invocations) are distinct. -/
theorem C2_same_millisecond_id_collision :
    (⟨1700000000000, ⟨2023, 11, 14, 22, 13, 20, 100000⟩⟩ : Clock) ≠
      (⟨1700000000000, ⟨2023, 11, 14, 22, 13, 20, 900000⟩⟩ : Clock) ∧
    dictGet "id" (buildPayload ⟨1700000000000, ⟨2023, 11, 14, 22, 13, 20, 100000⟩⟩
        "custom" "ambient" "first" []) =
      dictGet "id" (buildPayload ⟨1700000000000, ⟨2023, 11, 14, 22, 13, 20, 900000⟩⟩
        "custom" "ambient" "second" []) :=
  ⟨by decide, rfl⟩

/-- C3: the transmitted payload's `title` field is the input title,
unmodified, for every invocation of notify. -/
theorem C3_title_unmodified (baseUrl token : String) (c : Clock)
    (oracle : Request → HttpOutcome) (title event_type priority : String)
    (kwargs : List (String × JVal)) (hv : validKwargs kwargs) :
    ∀ r ∈ (notifyRun baseUrl token c oracle title event_type priority kwargs).calls,
      dictGet "title" r.body = some (JVal.str title) := by
  intro r hr
  rw [notifyRun_calls] at hr
  have he := List.eq_of_mem_singleton hr
  subst he
  exact title_in_payload c event_type priority title kwargs hv

/-- Witness for C3 at a concrete input. -/
theorem C3_title_unmodified_witness :
    validKwargs [("body", JVal.null)] ∧
    ∀ r ∈ (notifyRun "http://localhost:8080" "" ⟨0, ⟨2024, 1, 1, 0, 0, 0, 0⟩⟩
        (fun _ => HttpOutcome.noResponse) "Deploy finished" "custom" "ambient"
        [("body", JVal.null)]).calls,
      dictGet "title" r.body = some (JVal.str "Deploy finished") :=
  ⟨by decide, C3_title_unmodified "http://localhost:8080" "" ⟨0, ⟨2024, 1, 1, 0, 0, 0, 0⟩⟩
    (fun _ => HttpOutcome.noResponse) "Deploy finished" "custom" "ambient"
    [("body", JVal.null)] (by decide)⟩

/-- C4: against a service that never responds, notify fails with a
TransportError after blocking exactly the configured 10-unit timeout; and for
every service behaviour it blocks at most 10 units, never indefinitely. -/
theorem C4_timeout_bound :
    (∀ (baseUrl token : String) (c : Clock) (title event_type priority : String)
        (kwargs : List (String × JVal)),
      (notifyRun baseUrl token c (fun _ => HttpOutcome.noResponse)
          title event_type priority kwargs).result =
        Except.error NotifyError.transportError ∧
      (notifyRun baseUrl token c (fun _ => HttpOutcome.noResponse)
          title event_type priority kwargs).blocked = 10) ∧
    (∀ (baseUrl token : String) (c : Clock) (oracle : Request → HttpOutcome)
        (title event_type priority : String) (kwargs : List (String × JVal)),
      (notifyRun baseUrl token c oracle title event_type priority kwargs).blocked ≤ 10) := by
  constructor
  · intro baseUrl token c title event_type priority kwargs
    exact ⟨rfl, rfl⟩
  · intro baseUrl token c oracle title event_type priority kwargs
    exact doPost_fst_le _ _

end Breakpoint
namespace Breakpoint

/-- C5: the claim fails on the code. `raise_for_status()` raises only for
status codes 400-599, so a non-2xx status like 300 does not produce a
ProtocolError: with a JSON body it yields a success result. -/
theorem C5_counterexample :
    ¬(200 ≤ (300 : Nat) ∧ (300 : Nat) ≤ 299) ∧
    notify "http://localhost:8080" "" ⟨0, ⟨2024, 1, 1, 0, 0, 0, 0⟩⟩
        (fun _ => HttpOutcome.response 0 300 (some (JVal.obj []))) "t" "custom" "ambient" [] =
      Except.ok (JVal.obj []) :=
  ⟨by decide, rfl⟩

/-- C5 amended: notify fails with a ProtocolError carrying the status exactly
when the status is in 400-599; for any status outside that range (including
non-2xx statuses below 400) no ProtocolError is raised and the call proceeds
to decode the body. -/
theorem C5_amended (baseUrl token : String) (c : Clock)
    (title event_type priority : String) (kwargs : List (String × JVal))
    (d s : Nat) (b : Option JVal) (hd : d ≤ 10) :
    (400 ≤ s ∧ s < 600 →
      notify baseUrl token c (fun _ => HttpOutcome.response d s b)
          title event_type priority kwargs =
        Except.error (NotifyError.protocolError s)) ∧
    (¬(400 ≤ s ∧ s < 600) →
      ∀ code, notify baseUrl token c (fun _ => HttpOutcome.response d s b)
          title event_type priority kwargs ≠
        Except.error (NotifyError.protocolError code)) := by
  rw [notify_response baseUrl token c title event_type priority kwargs d s b hd]
  constructor
  · intro hs
    rw [if_pos hs]
  · intro hs code
    rw [if_neg hs]
    cases b with
    | some j => exact fun h => Except.noConfusion h
    | none =>
      intro h
      have h2 : NotifyError.decodeError = NotifyError.protocolError code := Except.error.inj h
      exact NotifyError.noConfusion h2

/-- Witness for C5 amended: a mocked 401 yields a ProtocolError carrying 401,
and a mocked 302 yields no ProtocolError. -/
theorem C5_amended_witness :
    ((0 : Nat) ≤ 10) ∧
    ((400 ≤ (401 : Nat) ∧ (401 : Nat) < 600 →
      notify "http://localhost:8080" "" ⟨0, ⟨2024, 1, 1, 0, 0, 0, 0⟩⟩
          (fun _ => HttpOutcome.response 0 401 (some (JVal.obj []))) "t" "custom" "ambient" [] =
        Except.error (NotifyError.protocolError 401)) ∧
    (¬(400 ≤ (401 : Nat) ∧ (401 : Nat) < 600) →
      ∀ code, notify "http://localhost:8080" "" ⟨0, ⟨2024, 1, 1, 0, 0, 0, 0⟩⟩
          (fun _ => HttpOutcome.response 0 401 (some (JVal.obj []))) "t" "custom" "ambient" [] ≠
        Except.error (NotifyError.protocolError code))) :=
  ⟨by decide, C5_amended "http://localhost:8080" "" ⟨0, ⟨2024, 1, 1, 0, 0, 0, 0⟩⟩
    "t" "custom" "ambient" [] 0 401 (some (JVal.obj [])) (by decide)⟩

/-- C6: a success status (2xx) with a body that does not parse as JSON makes
notify fail with a DecodeError. -/
theorem C6_decode_error (baseUrl token : String) (c : Clock)
    (title event_type priority : String) (kwargs : List (String × JVal))
    (d s : Nat) (h2xx : 200 ≤ s ∧ s ≤ 299) (hd : d ≤ 10) :
    notify baseUrl token c (fun _ => HttpOutcome.response d s none)
        title event_type priority kwargs =
      Except.error NotifyError.decodeError := by
  rw [notify_response baseUrl token c title event_type priority kwargs d s none hd,
    if_neg (by omega)]

/-- Witness for C6 at a concrete input. -/
theorem C6_decode_error_witness :
    (200 ≤ (200 : Nat) ∧ (200 : Nat) ≤ 299) ∧ ((0 : Nat) ≤ 10) ∧
    notify "http://localhost:8080" "" ⟨0, ⟨2024, 1, 1, 0, 0, 0, 0⟩⟩
        (fun _ => HttpOutcome.response 0 200 none) "t" "custom" "ambient" [] =
      Except.error NotifyError.decodeError :=
  ⟨by decide, by decide, C6_decode_error "http://localhost:8080" ""
    ⟨0, ⟨2024, 1, 1, 0, 0, 0, 0⟩⟩ "t" "custom" "ambient" [] 0 200 (by decide) (by decide)⟩

end Breakpoint
namespace Breakpoint

/-- C7: when `event_type` and `priority` are omitted the Python defaults
`"custom"` and `"ambient"` are used, and the transmitted payload carries
exactly those values (omitting them also means no extension field uses those
keyword names). -/
theorem C7_defaults (baseUrl token : String) (c : Clock)
    (oracle : Request → HttpOutcome) (title : String)
    (kwargs : List (String × JVal)) (hv : validKwargs kwargs) :
    ∀ r ∈ (notifyRun baseUrl token c oracle title "custom" "ambient" kwargs).calls,
      dictGet "event_type" r.body = some (JVal.str "custom") ∧
      dictGet "priority" r.body = some (JVal.str "ambient") := by
  intro r hr
  rw [notifyRun_calls] at hr
  have he := List.eq_of_mem_singleton hr
  subst he
  constructor
  · rw [dictGet_buildPayload_base c "custom" "ambient" title kwargs "event_type"
      (fun p hp => (hv p hp).2.1)]
    rfl
  · rw [dictGet_buildPayload_base c "custom" "ambient" title kwargs "priority"
      (fun p hp => (hv p hp).2.2)]
    rfl

/-- Witness for C7 at a concrete input. -/
theorem C7_defaults_witness :
    validKwargs [] ∧
    ∀ r ∈ (notifyRun "http://localhost:8080" "" ⟨0, ⟨2024, 1, 1, 0, 0, 0, 0⟩⟩
        (fun _ => HttpOutcome.noResponse) "t" "custom" "ambient" []).calls,
      dictGet "event_type" r.body = some (JVal.str "custom") ∧
      dictGet "priority" r.body = some (JVal.str "ambient") :=
  ⟨by decide, C7_defaults "http://localhost:8080" "" ⟨0, ⟨2024, 1, 1, 0, 0, 0, 0⟩⟩
    (fun _ => HttpOutcome.noResponse) "t" [] (by decide)⟩

/-- C8: the claim fails on the code. A caller-supplied `timestamp` extension
field overrides the generated timestamp (the `**kwargs` splat is last in the
dict literal), so the transmitted timestamp is caller-supplied, not the
client-generated ISO-8601 UTC value. -/
theorem C8_counterexample :
    dictGet "timestamp" (buildPayload ⟨0, ⟨2024, 1, 1, 0, 0, 0, 0⟩⟩ "custom" "ambient" "t"
        [("timestamp", JVal.str "yesterday")]) = some (JVal.str "yesterday") ∧
    JVal.str "yesterday" ≠
      JVal.str (isoformat (⟨2024, 1, 1, 0, 0, 0, 0⟩ : CivilTime) ++ "Z") := by
  refine ⟨rfl, ?_⟩
  intro h
  injection h with h2
  exact absurd h2 (by decide)

/-- C8 amended: when the caller supplies no `timestamp` extension field, the
transmitted timestamp is generated at submission time from the UTC clock
reading, is ISO-8601 with the explicit `Z` UTC designator (the parser
recovers exactly the clock reading), and across two sequential calls whose
clock readings are non-decreasing the denoted times are non-decreasing. -/
theorem C8_amended (c1 c2 : Clock) (et1 pr1 ti1 et2 pr2 ti2 : String)
    (kw1 kw2 : List (String × JVal))
    (h1 : ∀ p ∈ kw1, p.1 ≠ "timestamp") (h2 : ∀ p ∈ kw2, p.1 ≠ "timestamp")
    (hv1 : c1.utcNow.valid) (hv2 : c2.utcNow.valid)
    (hmono : c1.utcNow.key ≤ c2.utcNow.key) :
    dictGet "timestamp" (buildPayload c1 et1 pr1 ti1 kw1) =
      some (JVal.str (isoformat c1.utcNow ++ "Z")) ∧
    dictGet "timestamp" (buildPayload c2 et2 pr2 ti2 kw2) =
      some (JVal.str (isoformat c2.utcNow ++ "Z")) ∧
    parseTimestamp (isoformat c1.utcNow ++ "Z") = some c1.utcNow ∧
    parseTimestamp (isoformat c2.utcNow ++ "Z") = some c2.utcNow ∧
    (∀ t1 t2, parseTimestamp (isoformat c1.utcNow ++ "Z") = some t1 →
      parseTimestamp (isoformat c2.utcNow ++ "Z") = some t2 →
      t1.key ≤ t2.key) := by
  refine ⟨?_, ?_, parseTimestamp_isoformat _ hv1, parseTimestamp_isoformat _ hv2, ?_⟩
  · rw [dictGet_buildPayload_base c1 et1 pr1 ti1 kw1 "timestamp" h1]
    rfl
  · rw [dictGet_buildPayload_base c2 et2 pr2 ti2 kw2 "timestamp" h2]
    rfl
  · intro t1 t2 p1 p2
    rw [parseTimestamp_isoformat _ hv1] at p1
    rw [parseTimestamp_isoformat _ hv2] at p2
    have e1 := Option.some.inj p1
    have e2 := Option.some.inj p2
    rw [← e1, ← e2]
    exact hmono

/-- Witness for C8 amended at concrete sequential clock readings. -/
theorem C8_amended_witness :
    (∀ p ∈ ([] : List (String × JVal)), p.1 ≠ "timestamp") ∧
    (⟨2024, 1, 1, 0, 0, 0, 0⟩ : CivilTime).valid ∧
    (⟨2024, 1, 1, 0, 0, 0, 500000⟩ : CivilTime).valid ∧
    (⟨2024, 1, 1, 0, 0, 0, 0⟩ : CivilTime).key ≤
      (⟨2024, 1, 1, 0, 0, 0, 500000⟩ : CivilTime).key ∧
    (dictGet "timestamp" (buildPayload ⟨0, ⟨2024, 1, 1, 0, 0, 0, 0⟩⟩ "custom" "ambient" "a" []) =
      some (JVal.str (isoformat (⟨2024, 1, 1, 0, 0, 0, 0⟩ : CivilTime) ++ "Z")) ∧
    dictGet "timestamp" (buildPayload ⟨500, ⟨2024, 1, 1, 0, 0, 0, 500000⟩⟩ "custom" "ambient" "b" []) =
      some (JVal.str (isoformat (⟨2024, 1, 1, 0, 0, 0, 500000⟩ : CivilTime) ++ "Z")) ∧
    parseTimestamp (isoformat (⟨2024, 1, 1, 0, 0, 0, 0⟩ : CivilTime) ++ "Z") =
      some ⟨2024, 1, 1, 0, 0, 0, 0⟩ ∧
    parseTimestamp (isoformat (⟨2024, 1, 1, 0, 0, 0, 500000⟩ : CivilTime) ++ "Z") =
      some ⟨2024, 1, 1, 0, 0, 0, 500000⟩ ∧
    (∀ t1 t2, parseTimestamp (isoformat (⟨2024, 1, 1, 0, 0, 0, 0⟩ : CivilTime) ++ "Z") = some t1 →
      parseTimestamp (isoformat (⟨2024, 1, 1, 0, 0, 0, 500000⟩ : CivilTime) ++ "Z") = some t2 →
      t1.key ≤ t2.key)) :=
  ⟨by decide, by decide, by decide, by decide,
    C8_amended ⟨0, ⟨2024, 1, 1, 0, 0, 0, 0⟩⟩ ⟨500, ⟨2024, 1, 1, 0, 0, 0, 500000⟩⟩
      "custom" "ambient" "a" "custom" "ambient" "b" [] []
      (by decide) (by decide) (by decide) (by decide) (by decide)⟩

end Breakpoint
namespace Breakpoint

/-- C9: every invocation issues exactly one POST, to
`baseUrl ++ "/api/v1/events"`, with the `Authorization: Bearer <token>`
header, a body that is the event object with every extension field flattened
into the same top-level object, and no retry (the call list has length one
for every service behaviour, including failures). -/
theorem C9_single_post (baseUrl token : String) (c : Clock)
    (oracle : Request → HttpOutcome) (title event_type priority : String)
    (kwargs : List (String × JVal)) (hnd : (kwargs.map Prod.fst).Nodup) :
    (notifyRun baseUrl token c oracle title event_type priority kwargs).calls.length = 1 ∧
    ∀ r ∈ (notifyRun baseUrl token c oracle title event_type priority kwargs).calls,
      r.url = baseUrl ++ "/api/v1/events" ∧
      r.headers = [("Authorization", "Bearer " ++ token)] ∧
      r.body = buildPayload c event_type priority title kwargs ∧
      (∀ p ∈ kwargs, dictGet p.1 r.body = some p.2) := by
  refine ⟨rfl, ?_⟩
  intro r hr
  rw [notifyRun_calls] at hr
  have he := List.eq_of_mem_singleton hr
  subst he
  refine ⟨rfl, rfl, rfl, ?_⟩
  intro p hp
  exact dictGet_dictUpdate_mem _ kwargs p.1 p.2 hnd hp

/-- Witness for C9 at a concrete input. -/
theorem C9_single_post_witness :
    ((["url"] : List String).Nodup) ∧
    ((notifyRun "https://bp.example" "secret" ⟨3, ⟨2024, 6, 1, 12, 0, 0, 0⟩⟩
        (fun _ => HttpOutcome.response 0 200 (some (JVal.obj []))) "t" "custom" "ambient"
        [("url", JVal.str "https://ci.example/run/1")]).calls.length = 1 ∧
    ∀ r ∈ (notifyRun "https://bp.example" "secret" ⟨3, ⟨2024, 6, 1, 12, 0, 0, 0⟩⟩
        (fun _ => HttpOutcome.response 0 200 (some (JVal.obj []))) "t" "custom" "ambient"
        [("url", JVal.str "https://ci.example/run/1")]).calls,
      r.url = "https://bp.example" ++ "/api/v1/events" ∧
      r.headers = [("Authorization", "Bearer " ++ "secret")] ∧
      r.body = buildPayload ⟨3, ⟨2024, 6, 1, 12, 0, 0, 0⟩⟩ "custom" "ambient" "t"
        [("url", JVal.str "https://ci.example/run/1")] ∧
      (∀ p ∈ [("url", JVal.str "https://ci.example/run/1")], dictGet p.1 r.body = some p.2)) :=
  ⟨by decide, C9_single_post "https://bp.example" "secret" ⟨3, ⟨2024, 6, 1, 12, 0, 0, 0⟩⟩
    (fun _ => HttpOutcome.response 0 200 (some (JVal.obj []))) "t" "custom" "ambient"
    [("url", JVal.str "https://ci.example/run/1")] (by decide)⟩

/-- C10: a 2xx status whose body parses as JSON makes notify return the
parsed value verbatim, whatever its shape: no validation of the acknowledgment
structure is performed. -/
theorem C10_no_shape_validation (baseUrl token : String) (c : Clock)
    (title event_type priority : String) (kwargs : List (String × JVal))
    (d s : Nat) (j : JVal) (h2xx : 200 ≤ s ∧ s ≤ 299) (hd : d ≤ 10) :
    notify baseUrl token c (fun _ => HttpOutcome.response d s (some j))
        title event_type priority kwargs =
      Except.ok j := by
  rw [notify_response baseUrl token c title event_type priority kwargs d s (some j) hd,
    if_neg (by omega)]

/-- Witness for C10: a 200 response whose body is the JSON number 5 (not an
acknowledgment object, no `accepted` or `event_ids` field) is still returned
as a success. -/
theorem C10_no_shape_validation_witness :
    (200 ≤ (200 : Nat) ∧ (200 : Nat) ≤ 299) ∧ ((0 : Nat) ≤ 10) ∧
    notify "http://localhost:8080" "" ⟨0, ⟨2024, 1, 1, 0, 0, 0, 0⟩⟩
        (fun _ => HttpOutcome.response 0 200 (some (JVal.num 5))) "t" "custom" "ambient" [] =
      Except.ok (JVal.num 5) :=
  ⟨by decide, by decide, C10_no_shape_validation "http://localhost:8080" ""
    ⟨0, ⟨2024, 1, 1, 0, 0, 0, 0⟩⟩ "t" "custom" "ambient" [] 0 200 (JVal.num 5)
    (by decide) (by decide)⟩

end Breakpoint
